import Mathlib

/-!
Verification of the scheduling and subprocess-supervision core of the
Polymarket gasless redeem CLI (redeem_cli.py), as a shallow embedding.

External effects (the child process, the asyncio event loop, the stop
event, the interactive prompt) are modelled as explicit world inputs:
each point where the Python code observes the outside world becomes a
parameter, and each Python function becomes a total Lean function from
those observations to the data it returns.  Exceptions are modelled with
Except: a function that can let an exception escape returns Except, a
function that catches everything returns a plain value.
-/

set_option linter.unusedVariables false

namespace RedeemCli

/-- Environment: association list from variable names to values; lookup takes
the first binding, which models dictionary membership in os.environ. -/
abbrev Env := List (String × String)

/-- Lookup of a key in the environment, scanning from the front. -/
def envLookup : Env → String → Option String
  | [], _ => none
  | (k, v) :: rest, key => if k = key then some v else envLookup rest key

/-- Whitespace test used by the model of str.strip (space, tab, CR, LF). -/
def isWs (c : Char) : Bool :=
  c == ' ' || c == '\t' || c == '\r' || c == '\n'

/-- Drop whitespace from both ends of a character list. -/
def trimChars (cs : List Char) : List Char :=
  ((cs.dropWhile isWs).reverse.dropWhile isWs).reverse

/-- Model of str.strip applied to a line or a fragment (redeem_cli.py lines 25, 32, 33). -/
def strip (s : String) : String :=
  String.mk (trimChars s.data)

/-- Split a character list at the first equals sign; the accumulator holds the
characters before the split point in reverse. Models str.split with count 1 (line 31). -/
def splitEqAux : List Char → List Char → Option (List Char × List Char)
  | [], _ => none
  | c :: rest, acc =>
    if c == '=' then some (acc.reverse, rest) else splitEqAux rest (c :: acc)

/-- Split a line at the first equals sign into key part and value part; none
when the line has no equals sign, which models the membership test on line 30. -/
def splitOnceEq (s : String) : Option (String × String) :=
  match splitEqAux s.data [] with
  | none => none
  | some (k, v) => some (String.mk k, String.mk v)

/-- Test whether the first character of a string is the given character. -/
def firstCharIs (s : String) (c : Char) : Bool :=
  match s.data with
  | [] => false
  | d :: _ => d == c

/-- The single quote character, written by code point to keep the source plain. -/
def squote : Char := Char.ofNat 39

/-- Test whether a character list starts and ends with the given quote
character; a one character list satisfies it, exactly as the pair of
startswith and endswith tests on lines 35 and 37 does. -/
def startsEndsWith (q : Char) (cs : List Char) : Bool :=
  match cs, cs.getLast? with
  | c :: _, some d => c == q && d == q
  | _, _ => false

/-- Model of the quote removal on values (lines 34-38): one layer of matching
double quotes, otherwise one layer of matching single quotes, taken off by
dropping the first and last character. -/
def stripQuotes (s : String) : String :=
  if startsEndsWith '"' s.data then String.mk ((s.data.drop 1).dropLast)
  else if startsEndsWith squote s.data then String.mk ((s.data.drop 1).dropLast)
  else s

/-- Model of one line of load_env_file (lines 24-41): strip the line, skip it
when blank or when it starts with a hash, parse KEY=VALUE at the first equals
sign, strip both parts, unquote the value, and set the variable only when the
key and the value are nonempty and the key is not already in the environment. -/
def processEnvLine (env : Env) (rawLine : String) : Env :=
  let line := strip rawLine
  if line = "" ∨ firstCharIs line '#' = true then env
  else
    match splitOnceEq line with
    | none => env
    | some (k, v) =>
      let key := strip k
      let value := stripQuotes (strip v)
      if key ≠ "" ∧ value ≠ "" ∧ envLookup env key = none then env ++ [(key, value)]
      else env

/-- Model of load_env_file (lines 19-41) over the list of lines of the .env
file, merging into the given process environment. -/
def load_env_file (lines : List String) (env : Env) : Env :=
  lines.foldl processEnvLine env

/-- Combined captured output and status dictionary built on lines 86-99. -/
structure SubprocOutcome where
  output : String
  returncode : Int
deriving DecidableEq

/-- Raw completion data of the subprocess.run call when it returns normally. -/
structure CompletedProc where
  stdout : String
  stderr : String
  code : Int
deriving DecidableEq

/-- Exceptions the subprocess.run call may raise inside the worker thread:
the inner kill timeout, or any other Exception such as a missing executable. -/
inductive PyExc where
  | timeoutExpired
  | other (msg : String)
deriving DecidableEq

/-- Model of _run_subprocess_sync (lines 64-99).  The world argument says what
the subprocess.run call did: returned a completed process, raised the inner
timeout, or raised some other exception.  The result type is a plain value, not
an Except: both except clauses convert the exception into a sentinel outcome
with returncode -1 and the explanatory text as output. -/
def run_subprocess_sync (world : Except PyExc CompletedProc) : SubprocOutcome :=
  match world with
  | Except.ok r => { output := r.stdout ++ r.stderr, returncode := r.code }
  | Except.error PyExc.timeoutExpired => { output := "Script timed out", returncode := -1 }
  | Except.error (PyExc.other msg) => { output := msg, returncode := -1 }

/-- Inner hard kill timeout in seconds passed to subprocess.run (line 83). -/
def innerTimeoutSeconds : Nat := 115

/-- Outer supervisory timeout in seconds passed to asyncio.wait_for (line 114). -/
def outerTimeoutSeconds : Nat := 120

/-- Environment overlay for the child process (lines 67-70): the credential is
added under REDEEM_PASSWORD only when it is truthy, so an empty or absent
password leaves the inherited environment unchanged. -/
def buildEnv (password : Option String) (env : Env) : Env :=
  match password with
  | some p => if p = "" then env else ("REDEEM_PASSWORD", p) :: env
  | none => env

/-- Argument vector of the action invocation (lines 107-109). -/
def buildArgs (checkOnly : Bool) : List String :=
  ["npx", "tsx", "src/redeem.ts"] ++ (if checkOnly then ["--check"] else [])

/-- Result dictionary of _run_redemption (lines 101-134): success flag, the
exit code on the normal path, the error text on the failure paths. -/
structure RedeemResult where
  success : Bool
  exit_code : Option Int
  error : Option String
deriving DecidableEq

/-- Possible behaviours of awaiting the worker thread under the outer
supervisory timeout (lines 111-115): the thread finished with the given
subprocess world, the outer timeout fired, or some other exception was
raised by the orchestration. -/
inductive AwaitWorld where
  | finished (w : Except PyExc CompletedProc)
  | outerTimeout
  | raised (msg : String)

/-- Model of _run_redemption (lines 101-134): a missing script, the outer
timeout and any other exception all become failure result values; a finished
thread yields success exactly when the returncode is zero. -/
def run_redemption (scriptExists checkOnly : Bool) (a : AwaitWorld) : RedeemResult :=
  if scriptExists = false then
    { success := false, exit_code := none, error := some "Script not found" }
  else
    match a with
    | AwaitWorld.finished w =>
      { success := (run_subprocess_sync w).returncode == 0,
        exit_code := some (run_subprocess_sync w).returncode, error := none }
    | AwaitWorld.outerTimeout => { success := false, exit_code := none, error := some "Timeout" }
    | AwaitWorld.raised msg => { success := false, exit_code := none, error := some msg }

/-- Events observable from the scheduler loop, timestamped in seconds. -/
inductive LoopEv where
  | invoke (t : Nat)
  | schedule (now next : Nat)
  | sleepDone (tfrom tto : Nat)
  | cancelled (iter : Nat)
  | stopExit (t : Nat)
  | fuelOut
deriving DecidableEq

/-- External world of the loop: the value each stop event reading returns,
whether a task cancellation interrupts the sleep of an iteration, the duration
of each invocation, and the result of each invocation.  The source loop
discards the result of _run_redemption, so outcomeAt is never consulted. -/
structure LoopEnv where
  stopAt : Nat → Bool
  cancelAt : Nat → Bool
  durAt : Nat → Nat
  outcomeAt : Nat → RedeemResult

/-- Scheduler state: a clock plus the _last_run_at and _next_run_at fields. -/
structure LoopState where
  time : Nat
  last_run_at : Option Nat
  next_run_at : Option Nat
deriving DecidableEq

/-- Prepend events to the trace of a loop result. -/
def consEvs (es : List LoopEv) (r : LoopState × List LoopEv) : LoopState × List LoopEv :=
  (r.1, es ++ r.2)

/-- One while iteration of _run_loop (lines 147-164), fuel bounded.  Stop
reading 2*i is the while condition of iteration i and reading 2*i+1 is the
check after the sleep; cancelAt i says whether task.cancel interrupts the
sleep of iteration i, which the except clause on line 159 turns into a break.
When the while condition already sees the stop event set, the loop exits with
no new schedule and no invocation.  Otherwise _next_run_at is set to now plus
the interval in seconds, the scheduling notice is printed, and the loop
sleeps; after an uninterrupted sleep the invocation runs only when the stop
event is still clear, setting _last_run_at to the wake time. -/
def run_loop_iter (k : Nat) (env : LoopEnv) : Nat → Nat → LoopState → LoopState × List LoopEv
  | 0, _, s => (s, [LoopEv.fuelOut])
  | fuel + 1, i, s =>
    if env.stopAt (2 * i) = true then
      (s, [LoopEv.stopExit s.time])
    else if env.cancelAt i = true then
      ({ s with next_run_at := some (s.time + k * 60) },
        [LoopEv.schedule s.time (s.time + k * 60), LoopEv.cancelled i])
    else if env.stopAt (2 * i + 1) = true then
      consEvs [LoopEv.schedule s.time (s.time + k * 60), LoopEv.sleepDone s.time (s.time + k * 60)]
        (run_loop_iter k env fuel (i + 1)
          { s with time := s.time + k * 60, next_run_at := some (s.time + k * 60) })
    else
      consEvs [LoopEv.schedule s.time (s.time + k * 60), LoopEv.sleepDone s.time (s.time + k * 60),
               LoopEv.invoke (s.time + k * 60)]
        (run_loop_iter k env fuel (i + 1)
          { s with time := s.time + k * 60 + env.durAt (i + 1),
                   last_run_at := some (s.time + k * 60),
                   next_run_at := some (s.time + k * 60) })

/-- Model of _run_loop (lines 136-164): it records _last_run_at and performs
the first invocation immediately, returns when the interval is absent, and
otherwise enters the fuel bounded while loop. -/
def run_loop (interval_minutes : Option Nat) (env : LoopEnv) (fuel t0 : Nat) :
    LoopState × List LoopEv :=
  match interval_minutes with
  | none =>
    ({ time := t0 + env.durAt 0, last_run_at := some t0, next_run_at := none },
     [LoopEv.invoke t0])
  | some k =>
    consEvs [LoopEv.invoke t0]
      (run_loop_iter k env fuel 0
        { time := t0 + env.durAt 0, last_run_at := some t0, next_run_at := none })

/-- Closed form of the periodic trace when the stop event never fires and no
cancellation arrives: schedule, a full wait of the interval, an invocation,
then the next cycle, until the fuel runs out. -/
def noStopTrace (k : Nat) (dur : Nat → Nat) : Nat → Nat → Nat → List LoopEv
  | 0, _, _ => [LoopEv.fuelOut]
  | fuel + 1, i, t =>
    LoopEv.schedule t (t + k * 60) :: LoopEv.sleepDone t (t + k * 60)
      :: LoopEv.invoke (t + k * 60)
      :: noStopTrace k dur fuel (i + 1) (t + k * 60 + dur (i + 1))

/-- Status of the asyncio task handle held in _task. -/
inductive TaskStatus where
  | running
  | done
deriving DecidableEq

/-- State of a RedemptionCLI object (fields set in __init__, lines 47-62),
with the task handle reduced to an optional status. -/
structure CLIState where
  interval_minutes : Option Nat
  check_only : Bool
  password : Option String
  stopSet : Bool
  task : Option TaskStatus
  next_run_at : Option Nat
  last_run_at : Option Nat
deriving DecidableEq

/-- Model of RedemptionCLI.__init__ (lines 47-62). -/
def mkRedemptionCLI (interval_minutes : Option Nat) (check_only : Bool)
    (password : Option String) : CLIState :=
  { interval_minutes := interval_minutes, check_only := check_only, password := password,
    stopSet := false, task := none, next_run_at := none, last_run_at := none }

/-- Model of RedemptionCLI.start (lines 166-178).  With no interval it awaits
_run_redemption directly, touching no field of the object, so neither
timestamp is recorded on that path.  With an interval it clears the stop
event, creates the loop task, awaits it, and the timestamps are whatever the
loop left behind. -/
def start (cli : CLIState) (env : LoopEnv) (fuel t0 : Nat) : CLIState × List LoopEv :=
  match cli.interval_minutes with
  | none => (cli, [LoopEv.invoke t0])
  | some k =>
    ({ cli with stopSet := false, task := some TaskStatus.done,
                next_run_at := (run_loop (some k) env fuel t0).1.next_run_at,
                last_run_at := (run_loop (some k) env fuel t0).1.last_run_at },
     (run_loop (some k) env fuel t0).2)

/-- Cancellation signal of the asyncio runtime, which is not an Exception. -/
inductive AsyncSignal where
  | cancelledError
deriving DecidableEq

/-- Awaiting a task right after cancelling it: a still running task raises
CancelledError, a finished task returns at once. -/
def awaitTask : TaskStatus → Except AsyncSignal Unit
  | TaskStatus.running => Except.error AsyncSignal.cancelledError
  | TaskStatus.done => Except.ok ()

/-- Model of RedemptionCLI.stop (lines 180-189): set the stop event, and when
a task exists cancel it and await it, swallowing CancelledError; finally
report the termination notice.  The Except result type records whether any
signal escapes the method. -/
def stop (cli : CLIState) : Except AsyncSignal (CLIState × String) :=
  match cli.task with
  | none => Except.ok ({ cli with stopSet := true }, "Redemption CLI stopped.")
  | some st =>
    match awaitTask st with
    | Except.ok _ =>
      Except.ok ({ cli with stopSet := true, task := some TaskStatus.done },
        "Redemption CLI stopped.")
    | Except.error AsyncSignal.cancelledError =>
      Except.ok ({ cli with stopSet := true, task := some TaskStatus.done },
        "Redemption CLI stopped.")

/-- Outcome of the interactive getpass call. -/
inductive PromptResult where
  | entered (s : String)
  | keyboardInterrupt
  | eofError
deriving DecidableEq

/-- Model of prompt_password (lines 203-211): KeyboardInterrupt and EOFError
print Cancelled and call sys.exit with status 0; the error value carries the
process exit status. -/
def prompt_password : PromptResult → Except Nat String
  | PromptResult.entered s => Except.ok s
  | PromptResult.keyboardInterrupt => Except.error 0
  | PromptResult.eofError => Except.error 0

/-- Model of the credential resolution in main (lines 298-302): take
REDEEM_PASSWORD from the environment when truthy, otherwise prompt. -/
def resolve_password (env : Env) (pr : PromptResult) : Except Nat String :=
  match envLookup env "REDEEM_PASSWORD" with
  | some p => if p = "" then prompt_password pr else Except.ok p
  | none => prompt_password pr

/-- Tail of main after the preflight checks (lines 298-309): resolve the
credential, then construct the RedemptionCLI core.  An error value is the
status of a sys.exit that happens before the core object exists. -/
def main_core (interval_minutes : Option Nat) (check_only : Bool) (env : Env)
    (pr : PromptResult) : Except Nat CLIState :=
  match resolve_password env pr with
  | Except.error code => Except.error code
  | Except.ok pw => Except.ok (mkRedemptionCLI interval_minutes check_only (some pw))

/-- Benign constant loop world: the stop event never fires, no cancellation
arrives, invocations are instantaneous and succeed. -/
def constEnv : LoopEnv :=
  { stopAt := fun _ => false, cancelAt := fun _ => false, durAt := fun _ => 0,
    outcomeAt := fun _ => { success := true, exit_code := some 0, error := none } }

/-- Loop world where a cancellation interrupts every sleep. -/
def cancelEnv : LoopEnv := { constEnv with cancelAt := fun _ => true }

/-- Loop world where every stop reading sees the event set. -/
def stopSetEnv : LoopEnv := { constEnv with stopAt := fun _ => true }

/-- The scenario line of the configuration file from the spec. -/
def passwordLine : String := "REDEEM_PASSWORD=\"abc123\""

/-- A lookup that succeeds on an environment still succeeds with the same
value after any list is appended on the right. -/
theorem envLookup_append_of_mem (env l : Env) (k v : String)
    (h : envLookup env k = some v) : envLookup (env ++ l) k = some v := by
  induction env with
  | nil => simp [envLookup] at h
  | cons kv rest ih =>
    obtain ⟨k1, v1⟩ := kv
    by_cases hk : k1 = k
    · simp [envLookup, hk] at h ⊢; exact h
    · simp [envLookup, hk] at h ⊢; exact ih h

/-- Processing one line of the environment file never changes the value of a
key that is already bound. -/
theorem processEnvLine_preserves (env : Env) (line k v : String)
    (h : envLookup env k = some v) : envLookup (processEnvLine env line) k = some v := by
  unfold processEnvLine
  dsimp only
  split
  · exact h
  · split
    · exact h
    · split
      · exact envLookup_append_of_mem env _ k v h
      · exact h

/-- Loading the whole environment file never changes the value of a key that
was already bound in the process environment. -/
theorem load_env_file_preserves (lines : List String) (env : Env) (k v : String)
    (h : envLookup env k = some v) : envLookup (load_env_file lines env) k = some v := by
  induction lines generalizing env with
  | nil => simpa [load_env_file] using h
  | cons line rest ih =>
    simp only [load_env_file, List.foldl_cons] at ih ⊢
    exact ih _ (processEnvLine_preserves env line k v h)

/-- Every schedule event the loop ever emits carries a next run time equal to
the current time plus the interval in seconds. -/
theorem run_loop_iter_schedule_eq (k : Nat) (env : LoopEnv) :
    ∀ (fuel i : Nat) (s : LoopState) (a b : Nat),
      LoopEv.schedule a b ∈ (run_loop_iter k env fuel i s).2 → b = a + k * 60 := by
  intro fuel
  induction fuel with
  | zero => intro i s a b h; simp [run_loop_iter] at h
  | succ n ih =>
    intro i s a b h
    rw [run_loop_iter] at h
    split at h
    · simp at h
    · split at h
      · simp at h
        omega
      · split at h
        · simp [consEvs] at h
          rcases h with ⟨rfl, rfl⟩ | h
          · rfl
          · exact ih (i + 1) _ a b h
        · simp [consEvs] at h
          rcases h with ⟨rfl, rfl⟩ | h
          · rfl
          · exact ih (i + 1) _ a b h

/-- The loop never consults the invocation results: replacing the outcome
stream of the world leaves the iteration function unchanged. -/
theorem run_loop_iter_outcome_congr (k : Nat) (env : LoopEnv) (f : Nat → RedeemResult) :
    ∀ (fuel i : Nat) (s : LoopState),
      run_loop_iter k { env with outcomeAt := f } fuel i s = run_loop_iter k env fuel i s := by
  intro fuel
  induction fuel with
  | zero => intro i s; rfl
  | succ n ih =>
    intro i s
    rw [run_loop_iter, run_loop_iter]
    simp only []
    split
    · rfl
    · split
      · rfl
      · split
        · rw [ih]
        · rw [ih]

/-- With the stop event never set and no cancellation, the loop trace is the
closed periodic form: schedule, full wait, invocation, each cycle. -/
theorem run_loop_iter_no_stop (k : Nat) (env : LoopEnv)
    (hstop : ∀ n, env.stopAt n = false) (hcancel : ∀ n, env.cancelAt n = false) :
    ∀ (fuel i : Nat) (s : LoopState),
      (run_loop_iter k env fuel i s).2 = noStopTrace k env.durAt fuel i s.time := by
  intro fuel
  induction fuel with
  | zero => intro i s; simp [run_loop_iter, noStopTrace]
  | succ n ih =>
    intro i s
    rw [run_loop_iter]
    simp [hstop, hcancel, consEvs, noStopTrace, ih]

/-- Claim C1: errors from the action invocation never escape the invoker as
faults.  Every raising behaviour of the subprocess call is converted by
_run_subprocess_sync into a plain outcome with sentinel returncode -1 that
carries the error text (or the timed out notice) as output, and every failing
await behaviour is converted by _run_redemption into a plain failure result:
success is false and the error text is kept, never re-raised. -/
theorem c1_invoker_converts_errors_to_data :
    (∀ msg, run_subprocess_sync (Except.error (PyExc.other msg)) =
        { output := msg, returncode := -1 })
    ∧ (run_subprocess_sync (Except.error PyExc.timeoutExpired) =
        { output := "Script timed out", returncode := -1 })
    ∧ (∀ c e, run_redemption true c (AwaitWorld.finished (Except.error e)) =
        { success := false, exit_code := some (-1), error := none })
    ∧ (∀ c, run_redemption true c AwaitWorld.outerTimeout =
        { success := false, exit_code := none, error := some "Timeout" })
    ∧ (∀ c msg, run_redemption true c (AwaitWorld.raised msg) =
        { success := false, exit_code := none, error := some msg })
    ∧ (∀ c a, run_redemption false c a =
        { success := false, exit_code := none, error := some "Script not found" }) := by
  refine ⟨fun msg => rfl, rfl, ?_, fun c => rfl, fun c msg => rfl, fun c a => rfl⟩
  intro c e
  cases e <;> rfl

/-- Claim C4: an invocation whose child exceeds the inner 115 second kill
timeout yields the sentinel outcome with returncode -1 and the timed out
text, _run_redemption turns it into a failed result, and the outer 120 second
supervisory timeout is likewise converted into a failed result value rather
than a fault; the inner budget is strictly below the outer one. -/
theorem c4_timeout_failure :
    run_subprocess_sync (Except.error PyExc.timeoutExpired) =
      { output := "Script timed out", returncode := -1 }
    ∧ (∀ c, run_redemption true c (AwaitWorld.finished (Except.error PyExc.timeoutExpired)) =
        { success := false, exit_code := some (-1), error := none })
    ∧ (∀ c, run_redemption true c AwaitWorld.outerTimeout =
        { success := false, exit_code := none, error := some "Timeout" })
    ∧ innerTimeoutSeconds = 115 ∧ outerTimeoutSeconds = 120
    ∧ innerTimeoutSeconds < outerTimeoutSeconds :=
  ⟨rfl, fun c => rfl, fun c => rfl, rfl, rfl, by decide⟩

/-- Claim C2: in periodic mode the first invocation happens immediately at the
start of the loop, every scheduled next run time equals the current time plus
the interval in seconds, the loop is wholly independent of the invocation
outcomes (so a failed invocation never terminates the schedule), and when the
stop event never fires the trace is the closed periodic form: schedule, a
full interval wait, then the next invocation, every cycle. -/
theorem c2_periodic_scheduling (k : Nat) (env : LoopEnv) (fuel t0 : Nat) (hk : 1 ≤ k) :
    (run_loop (some k) env fuel t0).2.head? = some (LoopEv.invoke t0)
    ∧ (∀ a b, LoopEv.schedule a b ∈ (run_loop (some k) env fuel t0).2 → b = a + k * 60)
    ∧ (∀ f, run_loop (some k) { env with outcomeAt := f } fuel t0 = run_loop (some k) env fuel t0)
    ∧ ((∀ n, env.stopAt n = false) → (∀ n, env.cancelAt n = false) →
        (run_loop (some k) env fuel t0).2 =
          LoopEv.invoke t0 :: noStopTrace k env.durAt fuel 0 (t0 + env.durAt 0)) := by
  refine ⟨rfl, ?_, ?_, ?_⟩
  · intro a b h
    simp only [run_loop, consEvs, List.cons_append, List.nil_append, List.mem_cons] at h
    rcases h with h | h
    · cases h
    · exact run_loop_iter_schedule_eq k env fuel 0 _ a b h
  · intro f
    simp only [run_loop, consEvs]
    rw [run_loop_iter_outcome_congr]
  · intro hstop hcancel
    simp only [run_loop, consEvs, List.cons_append, List.nil_append]
    rw [run_loop_iter_no_stop k env hstop hcancel]

/-- Claim C2 witness at interval one, one cycle of fuel, benign world. -/
theorem c2_witness :
    (run_loop (some 1) constEnv 1 0).2.head? = some (LoopEv.invoke 0) :=
  (c2_periodic_scheduling 1 constEnv 1 0 (by decide)).1

/-- Claim C3: with no interval configured, start performs exactly one
invocation (the trace is the single invoke event, with no schedule event and
no wait event) and returns with the object state unchanged, so _next_run_at
is never set. -/
theorem c3_one_shot_single_invocation (cli : CLIState) (env : LoopEnv) (fuel t0 : Nat)
    (h : cli.interval_minutes = none) :
    start cli env fuel t0 = (cli, [LoopEv.invoke t0])
    ∧ (start cli env fuel t0).1.next_run_at = cli.next_run_at
    ∧ (∀ a b, LoopEv.schedule a b ∉ (start cli env fuel t0).2)
    ∧ (∀ a b, LoopEv.sleepDone a b ∉ (start cli env fuel t0).2) := by
  have hs : start cli env fuel t0 = (cli, [LoopEv.invoke t0]) := by
    unfold start
    rw [h]
  refine ⟨hs, by rw [hs], ?_, ?_⟩ <;> intro a b <;> rw [hs] <;> simp

/-- Claim C3 witness on a fresh one shot CLI. -/
theorem c3_witness :
    start (mkRedemptionCLI none false none) constEnv 2 5 =
      (mkRedemptionCLI none false none, [LoopEv.invoke 5]) :=
  (c3_one_shot_single_invocation (mkRedemptionCLI none false none) constEnv 2 5 rfl).1

/-- Claim C5: when a cancellation interrupts the interval wait of an
iteration whose while check had passed, the loop exits right after the
interrupted wait with no further invocation and nothing after the break; and
when the stop event is already set at the top of an iteration, the loop exits
at once with no invocation, no schedule event, and the state unchanged. -/
theorem c5_stop_semantics (k fuel : Nat) :
    (∀ (env : LoopEnv) (i : Nat) (s : LoopState),
        env.stopAt (2 * i) = false → env.cancelAt i = true →
        run_loop_iter k env (fuel + 1) i s =
          ({ s with next_run_at := some (s.time + k * 60) },
           [LoopEv.schedule s.time (s.time + k * 60), LoopEv.cancelled i]))
    ∧ (∀ (env : LoopEnv) (i : Nat) (s : LoopState),
        env.stopAt (2 * i) = true →
        run_loop_iter k env (fuel + 1) i s = (s, [LoopEv.stopExit s.time])) := by
  constructor
  · intro env i s h1 h2
    rw [run_loop_iter]
    simp [h1, h2]
  · intro env i s h1
    rw [run_loop_iter]
    simp [h1]

/-- Claim C5 witness: a cancellation in the first wait stops the loop with no
further invocation. -/
theorem c5_witness :
    run_loop_iter 1 cancelEnv 1 0 { time := 0, last_run_at := none, next_run_at := none } =
      ({ time := 0, last_run_at := none, next_run_at := some 60 },
       [LoopEv.schedule 0 60, LoopEv.cancelled 0]) :=
  (c5_stop_semantics 1 0).1 cancelEnv 0
    { time := 0, last_run_at := none, next_run_at := none } rfl rfl

/-- Claim C6 counterexample: cancelling the credential prompt makes the
process exit with status 0.  The claim asserts a non zero exit status; at
this concrete input the exit status is 0 and there is no non zero status the
call exits with. -/
theorem c6_counterexample :
    main_core none false [] PromptResult.keyboardInterrupt = Except.error 0
    ∧ ¬ (∃ c : Nat, c ≠ 0
          ∧ main_core none false [] PromptResult.keyboardInterrupt = Except.error c) := by
  refine ⟨rfl, ?_⟩
  rintro ⟨c, hc, h⟩
  have h2 : (Except.error 0 : Except Nat CLIState) = Except.error c := h
  injection h2 with h3
  exact hc h3.symm

/-- Claim C6 amended: whenever the prompt is reached (REDEEM_PASSWORD absent
from the environment or set to the empty string) and it is cancelled by
KeyboardInterrupt or EOFError, the process exits immediately, before the core
object is constructed, with exit status zero. -/
theorem c6_cancelled_prompt_exits_zero (im : Option Nat) (co : Bool) (env : Env)
    (pr : PromptResult)
    (henv : envLookup env "REDEEM_PASSWORD" = none ∨ envLookup env "REDEEM_PASSWORD" = some "")
    (hpr : pr = PromptResult.keyboardInterrupt ∨ pr = PromptResult.eofError) :
    main_core im co env pr = Except.error 0 := by
  have hp : prompt_password pr = Except.error 0 := by
    rcases hpr with rfl | rfl <;> rfl
  unfold main_core resolve_password
  rcases henv with h | h <;> rw [h] <;> simp [hp]

/-- Claim C6 amended witness: an empty credential in the environment plus an
end of file at the prompt exits with status zero. -/
theorem c6_amended_witness :
    main_core (some 15) true [("REDEEM_PASSWORD", "")] PromptResult.eofError =
      Except.error 0 :=
  c6_cancelled_prompt_exits_zero (some 15) true [("REDEEM_PASSWORD", "")]
    PromptResult.eofError (Or.inr rfl) (Or.inr rfl)

/-- Claim C7 counterexample: in one shot mode start performs the single
invocation but does not record the _last_run_at timestamp: on a fresh CLI it
is still none after start returns. -/
theorem c7_counterexample :
    (start (mkRedemptionCLI none false none) constEnv 3 0).2 = [LoopEv.invoke 0]
    ∧ (start (mkRedemptionCLI none false none) constEnv 3 0).1.last_run_at = none :=
  ⟨rfl, rfl⟩

/-- Claim C7 amended: in one shot mode start invokes the action exactly once
and returns, but it does not record _last_run_at: the field keeps its prior
value, because the one shot path of start bypasses _run_loop, which is the
only code that records _last_run_at (as its own first line does). -/
theorem c7_one_shot_no_last_run (cli : CLIState) (env : LoopEnv) (fuel t0 : Nat)
    (h : cli.interval_minutes = none) :
    (start cli env fuel t0).2 = [LoopEv.invoke t0]
    ∧ (start cli env fuel t0).1.last_run_at = cli.last_run_at
    ∧ (run_loop none env fuel t0).1.last_run_at = some t0 := by
  have hs : start cli env fuel t0 = (cli, [LoopEv.invoke t0]) := by
    unfold start
    rw [h]
  exact ⟨by rw [hs], by rw [hs], rfl⟩

/-- Claim C7 amended witness on a fresh check only one shot CLI. -/
theorem c7_amended_witness :
    (start (mkRedemptionCLI none true none) constEnv 1 7).2 = [LoopEv.invoke 7] :=
  (c7_one_shot_no_last_run (mkRedemptionCLI none true none) constEnv 1 7 rfl).1

/-- Claim C8: the environment file loader never overwrites a key already
present in the process environment; blank lines and hash comment lines are
ignored and the first file definition wins; and on the scenario file with a
quoted credential the merged configuration credential equals abc123 with the
quotes stripped. -/
theorem c8_env_loader (lines : List String) (env : Env) (key v : String)
    (h : envLookup env key = some v) :
    envLookup (load_env_file lines env) key = some v
    ∧ load_env_file ["# comment", "", "A=1", "A=2"] [] = [("A", "1")]
    ∧ load_env_file [passwordLine] [] = [("REDEEM_PASSWORD", "abc123")]
    ∧ resolve_password (load_env_file [passwordLine] []) PromptResult.eofError =
        Except.ok "abc123" := by
  refine ⟨load_env_file_preserves lines env key v h, ?_, ?_, ?_⟩ <;> rfl

/-- Claim C8 witness: a pre-existing binding survives a conflicting file line. -/
theorem c8_witness :
    envLookup (load_env_file ["B=2"] [("B", "old")]) "B" = some "old" :=
  (c8_env_loader ["B=2"] [("B", "old")] "B" "old" rfl).1

/-- Claim C9: stop never lets a signal escape and never blocks: for every CLI
state it returns normally with the termination notice, and a second stop on
the resulting state returns the very same state (idempotence); when no task
was ever started it only sets the stop flag. -/
theorem c9_stop_safe_idempotent :
    (∀ cli : CLIState, ∃ s : CLIState,
        stop cli = Except.ok (s, "Redemption CLI stopped.")
        ∧ stop s = Except.ok (s, "Redemption CLI stopped."))
    ∧ (∀ cli : CLIState, cli.task = none →
        stop cli = Except.ok ({ cli with stopSet := true }, "Redemption CLI stopped.")) := by
  constructor
  · intro cli
    rcases htask : cli.task with _ | st
    · exact ⟨{ cli with stopSet := true }, by simp [stop, htask], by simp [stop, htask]⟩
    · refine ⟨{ cli with stopSet := true, task := some TaskStatus.done }, ?_, ?_⟩ <;>
        cases st <;> simp [stop, awaitTask, htask]
  · intro cli h
    simp [stop, h]

/-- Claim C9 witness: stopping a CLI that never started a task is a safe no
op apart from the stop flag. -/
theorem c9_witness :
    stop (mkRedemptionCLI (some 15) false none) =
      Except.ok ({ mkRedemptionCLI (some 15) false none with stopSet := true },
        "Redemption CLI stopped.") :=
  c9_stop_safe_idempotent.2 (mkRedemptionCLI (some 15) false none) rfl

/-- Claim C10: an empty credential is treated as absent at both boundaries:
when REDEEM_PASSWORD is bound to the empty string the interactive prompt is
still used, and when the configured password is empty or absent the child
environment is exactly the inherited one, while a nonempty password is
overlaid under REDEEM_PASSWORD. -/
theorem c10_empty_credential_absent :
    (∀ (env : Env) (pr : PromptResult), envLookup env "REDEEM_PASSWORD" = some "" →
        resolve_password env pr = prompt_password pr)
    ∧ (∀ env : Env, buildEnv (some "") env = env)
    ∧ (∀ env : Env, buildEnv none env = env)
    ∧ (∀ (env : Env) (p : String), p ≠ "" →
        buildEnv (some p) env = ("REDEEM_PASSWORD", p) :: env) := by
  refine ⟨?_, fun env => rfl, fun env => rfl, ?_⟩
  · intro env pr h
    simp [resolve_password, h]
  · intro env p hp
    simp [buildEnv, hp]

/-- Claim C10 witness: an empty string credential in the environment still
reaches the prompt, at a concrete input. -/
theorem c10_witness :
    resolve_password [("REDEEM_PASSWORD", "")] PromptResult.keyboardInterrupt =
      prompt_password PromptResult.keyboardInterrupt :=
  c10_empty_credential_absent.1 [("REDEEM_PASSWORD", "")] PromptResult.keyboardInterrupt rfl

end RedeemCli
